import Mathlib

/-!
Verification of the CloudNativePG major-version downgrade core.

Two components are embedded:
* the Executor (`executeDowngrade` in the instance-manager `downgrade`
  package), modelled as a sequential program over an oracle environment
  giving the outcome of every external tool invocation and filesystem
  operation, and an abstract filesystem state tracking the data directory,
  the `.old` backup directory and the dump file; and
* the Trigger (`ReconcileDowngrade` in `pkg/reconciler/majorupgrade`),
  modelled as a function producing a reconcile result, an optional error
  and a trace of side effects (phase registration, job creation).
-/

namespace Downgrade

/-- State of the logical dump file inside a directory: absent, written by
`pg_dumpall` (raw), or rewritten by the sanitizing `sed` step. -/
inductive DumpFile where
  | absent
  | raw
  | sanitized
  deriving DecidableEq, Repr

/-- Abstract content of a data directory: whether `custom.conf` is present,
whether `postgresql.conf` still includes it, and the dump-file state. -/
structure Dir where
  hasCustomConf : Bool
  confIncludesCustom : Bool
  dump : DumpFile
  deriving DecidableEq, Repr

/-- Abstract filesystem: the directory at the `pgData` path and the
directory at the `pgData ++ ".old"` backup path, each possibly absent. -/
structure Fs where
  pgDataDir : Option Dir
  oldDir : Option Dir
  deriving DecidableEq, Repr

/-- Outcome of `os.Remove` on `custom.conf`: success, the not-exist error
(tolerated by the code), or another error (fatal). -/
inductive RemoveRes where
  | ok
  | notExist
  | failed (msg : String)
  deriving DecidableEq, Repr

/-- `r.succeeded` holds when `os.Remove` did not fail with a real error
(the not-exist case is tolerated by `executeDowngrade`). -/
def RemoveRes.succeeded : RemoveRes → Prop
  | .failed _ => False
  | _ => True

instance : DecidablePred RemoveRes.succeeded := fun r => by
  cases r <;> simp [RemoveRes.succeeded] <;> infer_instance

/-- Oracle environment: the outcome of every external tool invocation and
filesystem operation made by `executeDowngrade`, in program order.
`none` means the operation succeeds; `some msg` means it fails with the
underlying error message `msg`. The two best-effort stop outcomes are the
results of the `.Run()` calls whose errors the code discards. -/
structure ExecEnv where
  ensureSocketDir : Option String
  removeCustomConf : RemoveRes
  sedConf : Option String
  startOld : Option String
  dump : Option String
  stopOld : Option String
  sedDump : Option String
  rename : Option String
  initdb : Option String
  startNew : Option String
  restore : Option String
  stopNew : Option String
  removeOld : Option String
  stopAfterDump : Option String
  stopAfterRestore : Option String
  deriving DecidableEq, Repr

/-- Observable events of an Executor run, recorded when the corresponding
operation is attempted (whether or not it then succeeds). The
`psqlRestore` event records, besides the path handed to `psql -f`, the
dump-file state of the directory currently at `pgData` and of the backup
directory at `pgData ++ ".old"` at the moment of the invocation. -/
inductive Event where
  | ensureSocketDir
  | removeFile (p : String)
  | sedConf (p : String)
  | pgCtlStart (d : String)
  | pgDumpall (f : String)
  | pgCtlStopBestEffort (d : String)
  | pgCtlStop (d : String)
  | sedDump (f : String)
  | rename (src dst : String)
  | initdb (d : String)
  | psqlRestore (f : String) (present : DumpFile) (inBackup : DumpFile)
  | removeAll (p : String)
  deriving DecidableEq, Repr

/-- The data-directory state machine of the specification (section 3). -/
inductive DDState where
  | original
  | dumped
  | backedUp
  | reinitialized
  | restored
  | finalized
  deriving DecidableEq, Repr

/-- Mutable state threaded through an Executor run: the event trace, the
filesystem, and the spec-level data-directory states visited so far. -/
structure ExecSt where
  trace : List Event
  fs : Fs
  states : List DDState
  deriving DecidableEq, Repr

/-- The Executor monad: state plus an error channel that, on failure,
still reports the state reached (the trace and filesystem at abort). -/
abbrev ExecM := EStateM String ExecSt

/-- Record an event on the trace. -/
def emit (e : Event) : ExecM Unit := fun s =>
  .ok () { s with trace := s.trace ++ [e] }

/-- Apply a filesystem update. -/
def updFs (f : Fs → Fs) : ExecM Unit := fun s =>
  .ok () { s with fs := f s.fs }

/-- Record that the data directory reached a spec-level state. -/
def mark (d : DDState) : ExecM Unit := fun s =>
  .ok () { s with states := s.states ++ [d] }

/-- Update the directory currently at the `pgData` path, if present. -/
def updData (f : Dir → Dir) : Fs → Fs := fun fs =>
  { fs with pgDataDir := fs.pgDataDir.map f }

/-- Run one external tool: record its event; on failure wrap the
underlying message and abort; on success apply its filesystem effect. -/
def runTool (outcome : Option String) (ev : Event) (wrap : String → String)
    (eff : Fs → Fs) : ExecM Unit := do
  emit ev
  match outcome with
  | some e => throw (wrap e)
  | none => updFs eff

/-- The dump-file path used by `executeDowngrade`:
`path.Join(pgData, "downgrade_dump.sql")`. -/
def dumpFilePath (pgData : String) : String := pgData ++ "/downgrade_dump.sql"

/-- The fresh, empty data directory produced by a successful `initdb`. -/
def freshDir : Dir := { hasCustomConf := false, confIncludesCustom := false, dump := .absent }

/-- Monadic body of `executeDowngrade`, mirroring the Go control flow
step by step. -/
def executeDowngradeM (env : ExecEnv) (pgData : String) : ExecM Unit := do
  if pgData = "" then throw "PGDATA not set"
  mark .original
  emit .ensureSocketDir
  match env.ensureSocketDir with
  | some e => throw ("while creating socket directory: " ++ e)
  | none => pure ()
  let dumpFile := dumpFilePath pgData
  emit (.removeFile (pgData ++ "/custom.conf"))
  match env.removeCustomConf with
  | .failed e => throw ("failed to remove custom.conf: " ++ e)
  | .ok => updFs (updData fun d => { d with hasCustomConf := false })
  | .notExist => pure ()
  runTool env.sedConf (.sedConf (pgData ++ "/postgresql.conf"))
    (fun e => "sed failed: " ++ e)
    (updData fun d => { d with confIncludesCustom := false })
  runTool env.startOld (.pgCtlStart pgData)
    (fun e => "pg_ctl start failed: " ++ e) id
  emit (.pgDumpall dumpFile)
  match env.dump with
  | some e => do
      emit (.pgCtlStopBestEffort pgData)
      throw ("pg_dumpall failed: " ++ e)
  | none => updFs (updData fun d => { d with dump := .raw })
  runTool env.stopOld (.pgCtlStop pgData)
    (fun e => "pg_ctl stop failed: " ++ e) id
  mark .dumped
  runTool env.sedDump (.sedDump dumpFile)
    (fun e => "sed failed: " ++ e)
    (updData fun d => { d with dump := .sanitized })
  emit (.rename pgData (pgData ++ ".old"))
  match env.rename with
  | some e => throw ("failed to rename PGDATA: " ++ e)
  | none => do
      updFs (fun fs => { pgDataDir := none, oldDir := fs.pgDataDir })
      mark .backedUp
  runTool env.initdb (.initdb pgData)
    (fun e => "initdb failed: " ++ e)
    (fun fs => { fs with pgDataDir := some freshDir })
  mark .reinitialized
  runTool env.startNew (.pgCtlStart pgData)
    (fun e => "pg_ctl start failed: " ++ e) id
  let present := (← get).fs.pgDataDir.elim DumpFile.absent Dir.dump
  let inBackup := (← get).fs.oldDir.elim DumpFile.absent Dir.dump
  emit (.psqlRestore dumpFile present inBackup)
  match env.restore with
  | some e => do
      emit (.pgCtlStopBestEffort pgData)
      throw ("restore failed: " ++ e)
  | none => pure ()
  mark .restored
  runTool env.stopNew (.pgCtlStop pgData)
    (fun e => "pg_ctl stop failed: " ++ e) id
  emit (.removeAll (pgData ++ ".old"))
  match env.removeOld with
  | some e => throw ("failed to remove old PGDATA: " ++ e)
  | none => updFs (fun fs => { fs with oldDir := none })
  mark .finalized

/-- Outcome of an Executor run: the event trace, the final filesystem,
the spec-level states visited, and the returned error (`none` = success,
i.e. zero exit status). -/
structure ExecResult where
  trace : List Event
  fs : Fs
  states : List DDState
  err : Option String
  deriving DecidableEq, Repr

/-- `executeDowngrade`: run the Executor against an oracle environment,
a `pgData` path and an initial filesystem, observing trace, final
filesystem, visited states and returned error. -/
def executeDowngrade (env : ExecEnv) (pgData : String) (fs0 : Fs) : ExecResult :=
  match executeDowngradeM env pgData { trace := [], fs := fs0, states := [] } with
  | .ok _ s => ⟨s.trace, s.fs, s.states, none⟩
  | .error e s => ⟨s.trace, s.fs, s.states, some e⟩

/-- The all-success environment. -/
def envOK : ExecEnv :=
  { ensureSocketDir := none, removeCustomConf := .ok, sedConf := none
    startOld := none, dump := none, stopOld := none, sedDump := none
    rename := none, initdb := none, startNew := none, restore := none
    stopNew := none, removeOld := none, stopAfterDump := none
    stopAfterRestore := none }

/-- A typical pre-downgrade data directory. -/
def dir0 : Dir := { hasCustomConf := true, confIncludesCustom := true, dump := .absent }

/-- A typical initial filesystem: data directory present, no backup. -/
def fs0 : Fs := { pgDataDir := some dir0, oldDir := none }

/-- Is this event an `initdb` invocation? -/
def Event.isInitdb : Event → Bool
  | .initdb _ => true
  | _ => false

/-- Is this event a restore (`psql`) invocation? -/
def Event.isRestore : Event → Bool
  | .psqlRestore _ _ _ => true
  | _ => false

/-- Is this event a backup removal (`os.RemoveAll`)? -/
def Event.isRemoveAll : Event → Bool
  | .removeAll _ => true
  | _ => false

/-- Is this event an instance start (`pg_ctl start`)? -/
def Event.isStart : Event → Bool
  | .pgCtlStart _ => true
  | _ => false

/-- The effect of the configuration-strip steps on the data directory,
as a function of the `os.Remove` outcome on `custom.conf`. -/
def configStripDir (rc : RemoveRes) (d : Dir) : Dir :=
  { d with
    hasCustomConf := (match rc with | .ok => false | _ => d.hasCustomConf)
    confIncludesCustom := false }

/-- The effect of the preparation steps (config strip, dump, sanitize) on
the data directory, as a function of the `os.Remove` outcome on
`custom.conf`. -/
def prepDir (rc : RemoveRes) (d : Dir) : Dir :=
  { configStripDir rc d with dump := .sanitized }

/-- The filesystem right before the rename-to-backup step: the data
directory has gone through the preparation steps, everything else is
untouched. -/
def prepFs (rc : RemoveRes) (f : Fs) : Fs :=
  { f with pgDataDir := f.pgDataDir.map (prepDir rc) }

end Downgrade

namespace MajorUpgrade

/-- Cluster phase identifiers (from the `apiv1` package). Only the
major-upgrade phase constant is used by this core; other phases are
abstracted as `other`. -/
inductive Phase where
  | majorUpgrade
  | other (s : String)
  deriving DecidableEq, Repr

/-- `cluster.Status.PGDataImageInfo`: the recorded on-disk image info,
of which this core reads the major version. -/
structure PGDataImageInfo where
  majorVersion : Nat
  deriving DecidableEq, Repr

/-- The slice of cluster status consumed by `ReconcileDowngrade`. -/
structure ClusterStatus where
  pgDataImageInfo : Option PGDataImageInfo
  deriving DecidableEq, Repr

/-- The slice of the cluster object consumed by `ReconcileDowngrade`:
its name, the result of `GetPostgresqlMajorVersion()` (the declared
target major version, or a parse error), and its status. -/
structure Cluster where
  name : String
  getPostgresqlMajorVersion : Except String Nat
  status : ClusterStatus
  deriving Repr

/-- `jobMajorDowngrade`: the job-name suffix constant. -/
def jobMajorDowngrade : String := "major-downgrade"

/-- An execution unit (a batch Job). Modelled from the spec: the Job type
and `specs.CreatePrimaryJob` are outside the embedded sources; per the
spec an execution unit is a one-shot, node-pinned task description
`{command, ownerReference, targetNode}` with a deterministic identity
derived from the cluster and the job name. -/
structure Job where
  name : String
  targetNode : Nat
  command : List String
  ownerReference : String
  deriving DecidableEq, Repr

/-- Modelled from the spec: `specs.CreatePrimaryJob` (not among the
embedded sources) builds the node-pinned, owner-scoped unit for a
cluster, a node serial, a job name and a command. -/
def CreatePrimaryJob (cluster : Cluster) (nodeSerial : Nat) (jobName : String)
    (command : List String) : Job :=
  { name := cluster.name ++ "-" ++ jobName
    targetNode := nodeSerial
    command := command
    ownerReference := cluster.name }

/-- The fixed downgrade command vector. -/
def downgradeCommand : List String :=
  ["/controller/manager", "instance", "downgrade", "execute"]

/-- `createMajorDowngradeJobDefinition`: builds the downgrade job for the
primary node. -/
def createMajorDowngradeJobDefinition (cluster : Cluster) (nodeSerial : Nat) : Job :=
  CreatePrimaryJob cluster nodeSerial jobMajorDowngrade downgradeCommand

/-- Side effects of a `ReconcileDowngrade` invocation, in order:
recording a phase and message on the cluster status, and creating an
execution unit. -/
inductive TEffect where
  | registerPhase (ph : Phase) (msg : String)
  | createJob (j : Job)
  deriving DecidableEq, Repr

/-- Oracle environment for one `ReconcileDowngrade` invocation: the
result of `getPrimarySerial(pvcs)` (an error, or a serial where `0`
means no primary was found), and the outcomes of the three API calls
(`none` = success). -/
structure TriggerEnv where
  getPrimarySerial : Except String Nat
  registerPhase : Option String
  setControllerReference : Option String
  create : Option String
  deriving Repr

/-- `ctrl.Result`. -/
structure CtrlResult where
  requeue : Bool
  deriving DecidableEq, Repr

/-- Outcome of a `ReconcileDowngrade` invocation: the returned result and
error, and the trace of side effects actually performed. -/
structure TriggerResult where
  result : Option CtrlResult
  err : Option String
  effects : List TEffect
  deriving DecidableEq, Repr

/-- `ReconcileDowngrade`, mirroring the Go control flow: parse the target
major version; no-op unless a recorded on-disk version exists and the
target is strictly below it; resolve the primary serial (abort on error
or serial 0); register the major-upgrade phase with the downgrade
message; build the job, set its owner reference, create it; request a
requeue. -/
def ReconcileDowngrade (cluster : Cluster) (env : TriggerEnv) : TriggerResult :=
  match cluster.getPostgresqlMajorVersion with
  | .error e => ⟨none, some e, []⟩
  | .ok requestedMajor =>
    match cluster.status.pgDataImageInfo with
    | none => ⟨none, none, []⟩
    | some info =>
      if requestedMajor ≥ info.majorVersion then ⟨none, none, []⟩
      else
        match env.getPrimarySerial with
        | .error e => ⟨none, some e, []⟩
        | .ok primaryNodeSerial =>
          if primaryNodeSerial = 0 then ⟨none, none, []⟩
          else
            match env.registerPhase with
            | some e => ⟨none, some e, []⟩
            | none =>
              let msg := "Downgrading cluster from version " ++
                toString info.majorVersion ++ " to " ++ toString requestedMajor
              let eff1 := TEffect.registerPhase .majorUpgrade msg
              match env.setControllerReference with
              | some e => ⟨none, some e, [eff1]⟩
              | none =>
                match env.create with
                | some e => ⟨none, some e, [eff1]⟩
                | none =>
                  let job := createMajorDowngradeJobDefinition cluster primaryNodeSerial
                  ⟨some ⟨true⟩, none, [eff1, .createJob job]⟩

/-- `res.createsUnit` holds when the invocation created an execution
unit. -/
def TriggerResult.createsUnit (res : TriggerResult) : Prop :=
  ∃ j, TEffect.createJob j ∈ res.effects

instance (res : TriggerResult) : Decidable res.createsUnit := by
  unfold TriggerResult.createsUnit
  induction res.effects with
  | nil => exact .isFalse (by simp)
  | cons e tl ih =>
    cases h : e with
    | createJob j => exact .isTrue ⟨j, by simp⟩
    | registerPhase ph msg =>
      cases ih with
      | isTrue ht => exact .isTrue (by obtain ⟨j, hj⟩ := ht; exact ⟨j, by simp [hj]⟩)
      | isFalse hf =>
        exact .isFalse (by
          rintro ⟨j, hj⟩
          rcases List.mem_cons.mp hj with h1 | h1
          · exact absurd h1.symm (by simp)
          · exact hf ⟨j, h1⟩)

/-- The external scheduler's single-active-unit check, modelled from the
spec: creating a unit whose identity (name) matches an already-active
unit is rejected; otherwise the unit is admitted. -/
def schedulerCreate (active : List Job) (j : Job) : List Job :=
  if active.any (fun k => k.name = j.name) then active else j :: active

/-- Apply an invocation's effects to the external scheduler state. -/
def applyEffects (active : List Job) : List TEffect → List Job
  | [] => active
  | .registerPhase _ _ :: rest => applyEffects active rest
  | .createJob j :: rest => applyEffects (schedulerCreate active j) rest

/-- Accumulate created units with no duplicate check: the units that
would be active if every creation request the Trigger issues were
granted. -/
def applyEffectsNoCheck (active : List Job) : List TEffect → List Job
  | [] => active
  | .registerPhase _ _ :: rest => applyEffectsNoCheck active rest
  | .createJob j :: rest => applyEffectsNoCheck (j :: active) rest

/-- `n` repeated Trigger invocations against an unchanged cluster state,
their creation requests filtered through the external scheduler's
duplicate check. -/
def repeatedInvocations (c : Cluster) (env : TriggerEnv) : Nat → List Job
  | 0 => []
  | n + 1 =>
    applyEffects (repeatedInvocations c env n) (ReconcileDowngrade c env).effects

/-- `n` repeated Trigger invocations against an unchanged cluster state,
with every creation request granted unconditionally. -/
def repeatedInvocationsNoCheck (c : Cluster) (env : TriggerEnv) : Nat → List Job
  | 0 => []
  | n + 1 =>
    applyEffectsNoCheck (repeatedInvocationsNoCheck c env n)
      (ReconcileDowngrade c env).effects

/-- A sample in-progress cluster: recorded on-disk major version 17,
declared target version 15. -/
def cluster17to15 : Cluster :=
  { name := "cluster-example"
    getPostgresqlMajorVersion := .ok 15
    status := { pgDataImageInfo := some { majorVersion := 17 } } }

/-- The all-success trigger environment resolving primary serial 2. -/
def triggerEnvOK : TriggerEnv :=
  { getPrimarySerial := .ok 2, registerPhase := none
    setControllerReference := none, create := none }

end MajorUpgrade

namespace MajorUpgrade

/-- Full evaluation of `ReconcileDowngrade` on the success path: target
parses, a recorded version exists, the target is strictly below it, a
nonzero primary serial resolves, and the three API calls succeed. -/
theorem reconcile_success_eq (c : Cluster) (env : TriggerEnv) (t r s : Nat)
    (hparse : c.getPostgresqlMajorVersion = .ok t)
    (hrec : c.status.pgDataImageInfo = some ⟨r⟩)
    (hlt : t < r)
    (hser : env.getPrimarySerial = .ok s) (hs : s ≠ 0)
    (hreg : env.registerPhase = none)
    (href : env.setControllerReference = none)
    (hcr : env.create = none) :
    ReconcileDowngrade c env =
      ⟨some ⟨true⟩, none,
        [.registerPhase .majorUpgrade
            ("Downgrading cluster from version " ++ toString r ++ " to " ++ toString t),
         .createJob (createMajorDowngradeJobDefinition c s)]⟩ := by
  have h1 : ¬ (t ≥ r) := Nat.not_le.mpr hlt
  simp only [ReconcileDowngrade, hparse, hrec, hser, hreg, href, hcr,
    if_neg h1, if_neg hs]

/-- `ReconcileDowngrade` is a no-op when the target is not strictly below
the recorded version. -/
theorem reconcile_noop_ge (c : Cluster) (env : TriggerEnv) (t r : Nat)
    (hparse : c.getPostgresqlMajorVersion = .ok t)
    (hrec : c.status.pgDataImageInfo = some ⟨r⟩)
    (hge : r ≤ t) :
    ReconcileDowngrade c env = ⟨none, none, []⟩ := by
  simp only [ReconcileDowngrade, hparse, hrec, if_pos hge]

/-- `ReconcileDowngrade` is a no-op when no on-disk version is
recorded. -/
theorem reconcile_noop_none (c : Cluster) (env : TriggerEnv) (t : Nat)
    (hparse : c.getPostgresqlMajorVersion = .ok t)
    (hrec : c.status.pgDataImageInfo = none) :
    ReconcileDowngrade c env = ⟨none, none, []⟩ := by
  simp only [ReconcileDowngrade, hparse, hrec]

/-- When the primary lookup itself errors, `ReconcileDowngrade` surfaces
the error and performs no side effects. -/
theorem reconcile_noprimary_err (c : Cluster) (env : TriggerEnv) (t r : Nat) (e : String)
    (hparse : c.getPostgresqlMajorVersion = .ok t)
    (hrec : c.status.pgDataImageInfo = some ⟨r⟩)
    (hlt : t < r)
    (hser : env.getPrimarySerial = .error e) :
    ReconcileDowngrade c env = ⟨none, some e, []⟩ := by
  have h1 : ¬ (t ≥ r) := Nat.not_le.mpr hlt
  simp only [ReconcileDowngrade, hparse, hrec, hser, if_neg h1]

/-- When the primary serial resolves to 0 ("no primary"),
`ReconcileDowngrade` returns nothing and performs no side effects. -/
theorem reconcile_noprimary_zero (c : Cluster) (env : TriggerEnv) (t r : Nat)
    (hparse : c.getPostgresqlMajorVersion = .ok t)
    (hrec : c.status.pgDataImageInfo = some ⟨r⟩)
    (hlt : t < r)
    (hser : env.getPrimarySerial = .ok 0) :
    ReconcileDowngrade c env = ⟨none, none, []⟩ := by
  have h1 : ¬ (t ≥ r) := Nat.not_le.mpr hlt
  simp only [ReconcileDowngrade, hparse, hrec, hser, if_neg h1, if_pos rfl, ite_true]

/-- Claim C3: for all target versions `t` and all cluster states,
`ReconcileDowngrade` creates an execution unit iff a recorded on-disk
major version exists and `t` is strictly below it (given that the
primary lookup and the API calls themselves succeed); when `t` is
greater than or equal to the recorded version, or no recorded version
exists, no unit is created and no cluster status is mutated (the effect
trace is empty). -/
theorem C3_downgrade_decision_rule (c : Cluster) (env : TriggerEnv) (t : Nat)
    (hparse : c.getPostgresqlMajorVersion = .ok t) :
    ((∃ s, env.getPrimarySerial = .ok s ∧ s ≠ 0) → env.registerPhase = none →
      env.setControllerReference = none → env.create = none →
      ((ReconcileDowngrade c env).createsUnit ↔
        ∃ r, c.status.pgDataImageInfo = some ⟨r⟩ ∧ t < r))
    ∧ (∀ r, c.status.pgDataImageInfo = some ⟨r⟩ → r ≤ t →
        ReconcileDowngrade c env = ⟨none, none, []⟩)
    ∧ (c.status.pgDataImageInfo = none → ReconcileDowngrade c env = ⟨none, none, []⟩) := by
  refine ⟨?_, ?_, ?_⟩
  · rintro ⟨s, hser, hs⟩ hreg href hcr
    constructor
    · rintro ⟨j, hj⟩
      rcases hrec : c.status.pgDataImageInfo with _ | ⟨⟨r⟩⟩
      · rw [reconcile_noop_none c env t hparse hrec] at hj
        simp at hj
      · by_cases hlt : t < r
        · exact ⟨r, rfl, hlt⟩
        · rw [reconcile_noop_ge c env t r hparse hrec (Nat.not_lt.mp hlt)] at hj
          simp at hj
    · rintro ⟨r, hrec, hlt⟩
      exact ⟨createMajorDowngradeJobDefinition c s, by
        rw [reconcile_success_eq c env t r s hparse hrec hlt hser hs hreg href hcr]
        simp⟩
  · exact fun r hrec hge => reconcile_noop_ge c env t r hparse hrec hge
  · exact fun hrec => reconcile_noop_none c env t hparse hrec

/-- Witness for C3 at a concrete input: cluster with recorded version 17
and target 15, all lookups succeeding. -/
theorem C3_downgrade_decision_rule_applied :
    cluster17to15.getPostgresqlMajorVersion = .ok 15 ∧
    (((∃ s, triggerEnvOK.getPrimarySerial = .ok s ∧ s ≠ 0) →
      triggerEnvOK.registerPhase = none →
      triggerEnvOK.setControllerReference = none → triggerEnvOK.create = none →
      ((ReconcileDowngrade cluster17to15 triggerEnvOK).createsUnit ↔
        ∃ r, cluster17to15.status.pgDataImageInfo = some ⟨r⟩ ∧ 15 < r))
    ∧ (∀ r, cluster17to15.status.pgDataImageInfo = some ⟨r⟩ → r ≤ 15 →
        ReconcileDowngrade cluster17to15 triggerEnvOK = ⟨none, none, []⟩)
    ∧ (cluster17to15.status.pgDataImageInfo = none →
        ReconcileDowngrade cluster17to15 triggerEnvOK = ⟨none, none, []⟩)) :=
  ⟨rfl, C3_downgrade_decision_rule cluster17to15 triggerEnvOK 15 rfl⟩

/-- Claim C4 counterexample: the Trigger itself performs no active-unit
check. With the recorded version still 17 and the target 15 (the state
while a downgrade is in flight), a single invocation already issues a
unit-creation request, and two repeated invocations whose creation
requests are both granted leave two units active. -/
theorem C4_trigger_reissues_creation :
    (ReconcileDowngrade cluster17to15 triggerEnvOK).createsUnit ∧
    (repeatedInvocationsNoCheck cluster17to15 triggerEnvOK 2).length = 2 := by
  constructor
  · exact ⟨createMajorDowngradeJobDefinition cluster17to15 2, by decide⟩
  · decide

/-- Claim C4 (amended): across repeated invocations while a prior unit
for the same cluster is still active, the Trigger re-issues an identical
creation request each time; at most one unit per cluster is active only
because the external scheduler rejects a creation whose identity matches
the still-active unit, not because the Trigger checks cluster status for
an active unit. -/
theorem C4_at_most_one_active_unit (c : Cluster) (env : TriggerEnv) (t r s : Nat)
    (hparse : c.getPostgresqlMajorVersion = .ok t)
    (hrec : c.status.pgDataImageInfo = some ⟨r⟩)
    (hlt : t < r)
    (hser : env.getPrimarySerial = .ok s) (hs : s ≠ 0)
    (hreg : env.registerPhase = none)
    (href : env.setControllerReference = none)
    (hcr : env.create = none) :
    (∀ n, (repeatedInvocations c env n).length ≤ 1) ∧
    TEffect.createJob (createMajorDowngradeJobDefinition c s) ∈
      (ReconcileDowngrade c env).effects := by
  have heq := reconcile_success_eq c env t r s hparse hrec hlt hser hs hreg href hcr
  constructor
  · have key : ∀ n, repeatedInvocations c env n = [] ∨
        repeatedInvocations c env n = [createMajorDowngradeJobDefinition c s] := by
      intro n
      induction n with
      | zero => exact .inl rfl
      | succ k ih =>
        right
        rcases ih with h | h <;>
          simp [repeatedInvocations, h, heq, applyEffects, schedulerCreate]
    intro n
    rcases key n with h | h <;> simp [h]
  · rw [heq]; simp

/-- Witness for the amended C4 at a concrete input: recorded version 17,
target 15, primary serial 2. -/
theorem C4_at_most_one_active_unit_applied :
    cluster17to15.getPostgresqlMajorVersion = .ok 15 ∧
    ((∀ n, (repeatedInvocations cluster17to15 triggerEnvOK n).length ≤ 1) ∧
      TEffect.createJob (createMajorDowngradeJobDefinition cluster17to15 2) ∈
        (ReconcileDowngrade cluster17to15 triggerEnvOK).effects) :=
  ⟨rfl, C4_at_most_one_active_unit cluster17to15 triggerEnvOK 15 17 2 rfl rfl
    (by decide) rfl (by decide) rfl rfl rfl⟩

/-- Claim C8: whenever a downgrade is required (target strictly below the
recorded version) and a nonzero primary serial resolves, the Trigger
first records the phase message "Downgrading cluster from version
`recorded` to `target`", then creates exactly one execution unit
targeting that node with the fixed downgrade command, and returns a
result requesting a requeue. -/
theorem C8_downgrade_schedules_unit (c : Cluster) (env : TriggerEnv) (t r s : Nat)
    (hparse : c.getPostgresqlMajorVersion = .ok t)
    (hrec : c.status.pgDataImageInfo = some ⟨r⟩)
    (hlt : t < r)
    (hser : env.getPrimarySerial = .ok s) (hs : s ≠ 0)
    (hreg : env.registerPhase = none)
    (href : env.setControllerReference = none)
    (hcr : env.create = none) :
    ReconcileDowngrade c env =
      ⟨some ⟨true⟩, none,
        [.registerPhase .majorUpgrade
            ("Downgrading cluster from version " ++ toString r ++ " to " ++ toString t),
         .createJob (createMajorDowngradeJobDefinition c s)]⟩ ∧
    (createMajorDowngradeJobDefinition c s).targetNode = s ∧
    (createMajorDowngradeJobDefinition c s).command = downgradeCommand :=
  ⟨reconcile_success_eq c env t r s hparse hrec hlt hser hs hreg href hcr, rfl, rfl⟩

/-- Witness for C8 at the spec's concrete scenario: recorded version 17,
target 15, primary serial 2, message "Downgrading cluster from version
17 to 15". -/
theorem C8_downgrade_schedules_unit_applied :
    (15 : Nat) < 17 ∧
    (ReconcileDowngrade cluster17to15 triggerEnvOK =
      ⟨some ⟨true⟩, none,
        [.registerPhase .majorUpgrade
            ("Downgrading cluster from version " ++ toString 17 ++ " to " ++ toString 15),
         .createJob (createMajorDowngradeJobDefinition cluster17to15 2)]⟩ ∧
    (createMajorDowngradeJobDefinition cluster17to15 2).targetNode = 2 ∧
    (createMajorDowngradeJobDefinition cluster17to15 2).command = downgradeCommand) :=
  ⟨by decide, C8_downgrade_schedules_unit cluster17to15 triggerEnvOK 15 17 2 rfl rfl
    (by decide) rfl (by decide) rfl rfl rfl⟩

/-- Claim C9: if no primary node can be resolved from the supplied
volume set — the lookup errors, or the serial resolves to 0 ("no
primary") — `ReconcileDowngrade` performs no side effects, returns no
unit and no result, and surfaces the underlying lookup error, if any. -/
theorem C9_no_primary_aborts (c : Cluster) (env : TriggerEnv) (t r : Nat)
    (hparse : c.getPostgresqlMajorVersion = .ok t)
    (hrec : c.status.pgDataImageInfo = some ⟨r⟩)
    (hlt : t < r) :
    (∀ e, env.getPrimarySerial = .error e →
      ReconcileDowngrade c env = ⟨none, some e, []⟩) ∧
    (env.getPrimarySerial = .ok 0 →
      ReconcileDowngrade c env = ⟨none, none, []⟩) :=
  ⟨fun e hser => reconcile_noprimary_err c env t r e hparse hrec hlt hser,
   fun hser => reconcile_noprimary_zero c env t r hparse hrec hlt hser⟩

/-- Witness for C9 at a concrete input: recorded version 17, target
15. -/
theorem C9_no_primary_aborts_applied :
    (15 : Nat) < 17 ∧
    ((∀ e, ({ triggerEnvOK with getPrimarySerial := .error "pvc lookup failed" } :
        TriggerEnv).getPrimarySerial = .error e →
      ReconcileDowngrade cluster17to15
        { triggerEnvOK with getPrimarySerial := .error "pvc lookup failed" } =
        ⟨none, some e, []⟩) ∧
    (({ triggerEnvOK with getPrimarySerial := .error "pvc lookup failed" } :
        TriggerEnv).getPrimarySerial = .ok 0 →
      ReconcileDowngrade cluster17to15
        { triggerEnvOK with getPrimarySerial := .error "pvc lookup failed" } =
        ⟨none, none, []⟩)) :=
  ⟨by decide, C9_no_primary_aborts cluster17to15
    { triggerEnvOK with getPrimarySerial := .error "pvc lookup failed" } 15 17 rfl rfl
    (by decide)⟩

/-- Claim C10: every phase registration `ReconcileDowngrade` performs
uses the major-upgrade phase constant; a downgrade is distinguished from
an upgrade only by the human-readable message, never by the phase
identifier. -/
theorem C10_phase_is_major_upgrade (c : Cluster) (env : TriggerEnv) (ph : Phase) (msg : String)
    (h : TEffect.registerPhase ph msg ∈ (ReconcileDowngrade c env).effects) :
    ph = Phase.majorUpgrade := by
  unfold ReconcileDowngrade at h
  repeat' split at h
  all_goals simp_all

/-- Witness for C10 at a concrete input: the downgrade run that records
a phase records the major-upgrade phase. -/
theorem C10_phase_is_major_upgrade_applied :
    TEffect.registerPhase Phase.majorUpgrade "Downgrading cluster from version 17 to 15" ∈
      (ReconcileDowngrade cluster17to15 triggerEnvOK).effects ∧
    Phase.majorUpgrade = Phase.majorUpgrade :=
  ⟨by decide, C10_phase_is_major_upgrade cluster17to15 triggerEnvOK Phase.majorUpgrade
    "Downgrading cluster from version 17 to 15" (by decide)⟩

end MajorUpgrade

namespace Downgrade

/-- Claim C2: for every Executor run with a non-empty data-directory
parameter in which every external tool invocation and every filesystem
operation succeeds, the data directory progresses in order through
Original, Dumped, Backed-Up, Reinitialized, Restored, Finalized; the
final filesystem has no backup directory at `pgData ++ ".old"`; and the
run returns success (no error, i.e. zero status). -/
theorem C2_all_success_run (env : ExecEnv) (pgData : String) (f : Fs) (hp : pgData ≠ "")
    (h1 : env.ensureSocketDir = none) (h2 : env.removeCustomConf.succeeded)
    (h3 : env.sedConf = none) (h4 : env.startOld = none) (h5 : env.dump = none)
    (h6 : env.stopOld = none) (h7 : env.sedDump = none) (h8 : env.rename = none)
    (h9 : env.initdb = none) (h10 : env.startNew = none) (h11 : env.restore = none)
    (h12 : env.stopNew = none) (h13 : env.removeOld = none) :
    (executeDowngrade env pgData f).states =
      [.original, .dumped, .backedUp, .reinitialized, .restored, .finalized] ∧
    (executeDowngrade env pgData f).fs.oldDir = none ∧
    (executeDowngrade env pgData f).err = none := by
  obtain ⟨e1, e2, e3, e4, e5, e6, e7, e8, e9, e10, e11, e12, e13, e14, e15⟩ := env
  simp only at h1 h2 h3 h4 h5 h6 h7 h8 h9 h10 h11 h12 h13
  subst h1 h3 h4 h5 h6 h7 h8 h9 h10 h11 h12 h13
  obtain ⟨fd, fo⟩ := f
  rcases e2 with _ | _ | msg <;> cases fd
  case failed.none => exact absurd h2 (by simp [RemoveRes.succeeded])
  case failed.some => exact absurd h2 (by simp [RemoveRes.succeeded])
  all_goals
    refine ⟨?_, ?_, ?_⟩ <;>
      (unfold executeDowngrade executeDowngradeM; rw [if_neg hp]; rfl)

/-- Witness for C2 at a concrete input: `pgData = "/var/lib/pg"`, data
directory present, every operation succeeding. -/
theorem C2_all_success_run_applied :
    "/var/lib/pg" ≠ "" ∧
    ((executeDowngrade envOK "/var/lib/pg" fs0).states =
      [.original, .dumped, .backedUp, .reinitialized, .restored, .finalized] ∧
    (executeDowngrade envOK "/var/lib/pg" fs0).fs.oldDir = none ∧
    (executeDowngrade envOK "/var/lib/pg" fs0).err = none) :=
  ⟨by decide, C2_all_success_run envOK "/var/lib/pg" fs0 (by decide) rfl (by trivial)
    rfl rfl rfl rfl rfl rfl rfl rfl rfl rfl rfl⟩

/-- Claim C1 (failing run of the code): in the run where every operation
succeeds, the sanitize step rewrites the dump file at
`pgData ++ "/downgrade_dump.sql"`, but when the restore step hands that
same path to `psql` no dump file is present there any more — the rename
moved it into the backup directory, where it sits sanitized. The restore
step therefore does not replay the sanitized dump against the new
instance. -/
theorem C1_restore_path_holds_no_dump :
    Event.sedDump (dumpFilePath "/var/lib/pg") ∈
      (executeDowngrade envOK "/var/lib/pg" fs0).trace ∧
    Event.rename "/var/lib/pg" "/var/lib/pg.old" ∈
      (executeDowngrade envOK "/var/lib/pg" fs0).trace ∧
    Event.psqlRestore (dumpFilePath "/var/lib/pg") DumpFile.absent DumpFile.sanitized ∈
      (executeDowngrade envOK "/var/lib/pg" fs0).trace := by
  refine ⟨?_, ?_, ?_⟩ <;> decide

/-- Claim C5: if the rename of the data directory to its backup name
fails, the Executor aborts with the rename error; the filesystem is
exactly what the preparation steps left (the directory is still at the
original path, the backup path untouched); and no later step — initdb,
second start, restore, or backup removal — is executed. -/
theorem C5_rename_failure_leaves_dir (env : ExecEnv) (pgData m : String) (f : Fs)
    (hp : pgData ≠ "")
    (h1 : env.ensureSocketDir = none) (h2 : env.removeCustomConf.succeeded)
    (h3 : env.sedConf = none) (h4 : env.startOld = none) (h5 : env.dump = none)
    (h6 : env.stopOld = none) (h7 : env.sedDump = none)
    (hren : env.rename = some m) :
    (executeDowngrade env pgData f).err = some ("failed to rename PGDATA: " ++ m) ∧
    (executeDowngrade env pgData f).fs = prepFs env.removeCustomConf f ∧
    (executeDowngrade env pgData f).trace.filter
      (fun e => e.isInitdb || e.isRestore || e.isRemoveAll) = [] ∧
    (executeDowngrade env pgData f).trace.countP Event.isStart = 1 := by
  obtain ⟨e1, e2, e3, e4, e5, e6, e7, e8, e9, e10, e11, e12, e13, e14, e15⟩ := env
  simp only at h1 h2 h3 h4 h5 h6 h7 hren
  subst h1 h3 h4 h5 h6 h7 hren
  obtain ⟨fd, fo⟩ := f
  rcases e2 with _ | _ | msg <;> cases fd
  case failed.none => exact absurd h2 (by simp [RemoveRes.succeeded])
  case failed.some => exact absurd h2 (by simp [RemoveRes.succeeded])
  all_goals
    refine ⟨?_, ?_, ?_, ?_⟩ <;>
      (unfold executeDowngrade executeDowngradeM; rw [if_neg hp]; rfl)

/-- Witness for C5 at a concrete input: the rename fails with message
"busy". -/
theorem C5_rename_failure_leaves_dir_applied :
    "/var/lib/pg" ≠ "" ∧
    ((executeDowngrade { envOK with rename := some "busy" } "/var/lib/pg" fs0).err =
        some ("failed to rename PGDATA: " ++ "busy") ∧
    (executeDowngrade { envOK with rename := some "busy" } "/var/lib/pg" fs0).fs =
        prepFs ({ envOK with rename := some "busy" } : ExecEnv).removeCustomConf fs0 ∧
    (executeDowngrade { envOK with rename := some "busy" } "/var/lib/pg" fs0).trace.filter
        (fun e => e.isInitdb || e.isRestore || e.isRemoveAll) = [] ∧
    (executeDowngrade { envOK with rename := some "busy" } "/var/lib/pg" fs0).trace.countP
        Event.isStart = 1) :=
  ⟨by decide, C5_rename_failure_leaves_dir { envOK with rename := some "busy" }
    "/var/lib/pg" "busy" fs0 (by decide) rfl (by trivial) rfl rfl rfl rfl rfl rfl⟩

/-- Claim C6: whenever the export (dump) step or the restore step fails,
the Executor's last action before returning is a best-effort stop of the
running instance, and the returned error reflects the dump or restore
failure. The best-effort stop outcomes (`stopAfterDump`,
`stopAfterRestore`) are left universally quantified and do not occur in
the conclusion: the stop attempt's own failure never masks the original
error. -/
theorem C6_failure_stops_instance (env : ExecEnv) (pgData m : String) (f : Fs)
    (hp : pgData ≠ "")
    (h1 : env.ensureSocketDir = none) (h2 : env.removeCustomConf.succeeded)
    (h3 : env.sedConf = none) (h4 : env.startOld = none) :
    (env.dump = some m →
      (executeDowngrade env pgData f).err = some ("pg_dumpall failed: " ++ m) ∧
      (executeDowngrade env pgData f).trace.getLast? =
        some (.pgCtlStopBestEffort pgData)) ∧
    (env.dump = none → env.stopOld = none → env.sedDump = none → env.rename = none →
     env.initdb = none → env.startNew = none → env.restore = some m →
      (executeDowngrade env pgData f).err = some ("restore failed: " ++ m) ∧
      (executeDowngrade env pgData f).trace.getLast? =
        some (.pgCtlStopBestEffort pgData)) := by
  obtain ⟨e1, e2, e3, e4, e5, e6, e7, e8, e9, e10, e11, e12, e13, e14, e15⟩ := env
  simp only at h1 h2 h3 h4
  subst h1 h3 h4
  constructor
  · intro h5
    simp only at h5
    subst h5
    obtain ⟨fd, fo⟩ := f
    rcases e2 with _ | _ | msg <;> cases fd
    case failed.none => exact absurd h2 (by simp [RemoveRes.succeeded])
    case failed.some => exact absurd h2 (by simp [RemoveRes.succeeded])
    all_goals
      refine ⟨?_, ?_⟩ <;>
        (unfold executeDowngrade executeDowngradeM; rw [if_neg hp]; rfl)
  · intro h5 h6 h7 h8 h9 h10 h11
    simp only at h5 h6 h7 h8 h9 h10 h11
    subst h5 h6 h7 h8 h9 h10 h11
    obtain ⟨fd, fo⟩ := f
    rcases e2 with _ | _ | msg <;> cases fd
    case failed.none => exact absurd h2 (by simp [RemoveRes.succeeded])
    case failed.some => exact absurd h2 (by simp [RemoveRes.succeeded])
    all_goals
      refine ⟨?_, ?_⟩ <;>
        (unfold executeDowngrade executeDowngradeM; rw [if_neg hp]; rfl)

/-- Witness for C6 at a concrete input: the dump fails with message
"oops" while the best-effort stop itself also fails; the returned error
is still the dump failure. -/
theorem C6_failure_stops_instance_applied :
    ({ envOK with dump := some "oops", stopAfterDump := some "stop also failed" } :
        ExecEnv).dump = some "oops" ∧
    ((executeDowngrade { envOK with dump := some "oops", stopAfterDump := some "stop also failed" }
        "/var/lib/pg" fs0).err = some ("pg_dumpall failed: " ++ "oops") ∧
      (executeDowngrade { envOK with dump := some "oops", stopAfterDump := some "stop also failed" }
        "/var/lib/pg" fs0).trace.getLast? =
        some (.pgCtlStopBestEffort "/var/lib/pg")) :=
  ⟨rfl, (C6_failure_stops_instance
      { envOK with dump := some "oops", stopAfterDump := some "stop also failed" }
      "/var/lib/pg" "oops" fs0 (by decide) rfl (by trivial) rfl rfl).1 rfl⟩

/-- Claim C7: if the restore step fails, the returned error names
"restore failed" and wraps the underlying tool error, and the `.old`
backup directory (holding the prepared original directory) still exists
afterward: the finalize removal is never attempted on that path. -/
theorem C7_restore_failure_keeps_backup (env : ExecEnv) (pgData m : String) (f : Fs)
    (d : Dir) (hp : pgData ≠ "")
    (h1 : env.ensureSocketDir = none) (h2 : env.removeCustomConf.succeeded)
    (h3 : env.sedConf = none) (h4 : env.startOld = none) (h5 : env.dump = none)
    (h6 : env.stopOld = none) (h7 : env.sedDump = none) (h8 : env.rename = none)
    (h9 : env.initdb = none) (h10 : env.startNew = none)
    (hres : env.restore = some m)
    (hfd : f.pgDataDir = some d) :
    (executeDowngrade env pgData f).err = some ("restore failed: " ++ m) ∧
    (executeDowngrade env pgData f).fs.oldDir =
      some (prepDir env.removeCustomConf d) ∧
    (executeDowngrade env pgData f).trace.filter Event.isRemoveAll = [] := by
  obtain ⟨e1, e2, e3, e4, e5, e6, e7, e8, e9, e10, e11, e12, e13, e14, e15⟩ := env
  simp only at h1 h2 h3 h4 h5 h6 h7 h8 h9 h10 hres
  subst h1 h3 h4 h5 h6 h7 h8 h9 h10 hres
  obtain ⟨fd, fo⟩ := f
  simp only at hfd
  subst hfd
  rcases e2 with _ | _ | msg
  case failed => exact absurd h2 (by simp [RemoveRes.succeeded])
  all_goals
    refine ⟨?_, ?_, ?_⟩ <;>
      (unfold executeDowngrade executeDowngradeM; rw [if_neg hp]; rfl)

/-- Witness for C7 at a concrete input: the restore fails with message
"boom"; the backup directory still holds the sanitized original. -/
theorem C7_restore_failure_keeps_backup_applied :
    ({ envOK with restore := some "boom" } : ExecEnv).restore = some "boom" ∧
    ((executeDowngrade { envOK with restore := some "boom" } "/var/lib/pg" fs0).err =
        some ("restore failed: " ++ "boom") ∧
    (executeDowngrade { envOK with restore := some "boom" } "/var/lib/pg" fs0).fs.oldDir =
        some (prepDir ({ envOK with restore := some "boom" } : ExecEnv).removeCustomConf dir0) ∧
    (executeDowngrade { envOK with restore := some "boom" } "/var/lib/pg" fs0).trace.filter
        Event.isRemoveAll = []) :=
  ⟨rfl, C7_restore_failure_keeps_backup { envOK with restore := some "boom" }
    "/var/lib/pg" "boom" fs0 dir0 (by decide) rfl (by trivial) rfl rfl rfl rfl rfl rfl
    rfl rfl rfl rfl⟩

end Downgrade
